import Mathlib

set_option autoImplicit false

/-!
Shallow embedding of the DeFiGuardian account-abstraction transaction pipeline:
address derivation, allowance oracle, gasless revoke orchestration
(TransactionService / PaymasterService), smart-account deployment
(SmartAccountService), the revoke-confirm verification route and the
per-owner deployment rate limiter.

Addresses and hashes are modelled as strings (hex literals in the source).
Every network call (RPC read, user-operation submission, receipt wait) is a
suspension point that can fail; it is modelled as an `Except` value carried
by an environment record, so a service method becomes a pure function of its
environment.  Thrown JavaScript errors become `Except.error`; the
`catch (error) \x7b throw new Error(context + message) \x7d` rewrapping pattern of
the source becomes the `SvcError.wrap` constructor.
-/

/-- Hex-string account address, as used throughout the source. -/
abbrev Addr := String

/-- Hex-string transaction / user-operation hash. -/
abbrev TxHash := String

/-- Errors thrown by the services.  Distinct `throw new Error(...)` sites of the
source are distinct constructors; `wrap context inner` models the catch blocks
that rethrow with a context prefix, preserving the inner message. -/
inductive SvcError where
  | network (msg : String)
  | timeout
  | alreadyDeployed
  | mismatch
  | configMissing (what : String)
  | txFailed
  | verifyFailed
  | wrap (context : String) (inner : SvcError)
  deriving DecidableEq, Repr

/-- On-chain receipt status (`receipt.status === "success"` in viem). -/
inductive ReceiptStatus where
  | success
  | reverted
  deriving DecidableEq, Repr

/-- A transaction / user-operation receipt as read from the chain. -/
structure TxReceipt where
  status : ReceiptStatus
  transactionHash : TxHash
  blockNumber : Nat
  gasUsed : Nat
  deriving DecidableEq, Repr

/-- The `status` union of `RevokeResult` / `GaslessRevokeResult` in the source:
`"pending" | "confirmed" | "failed"`. -/
inductive RStatus where
  | pending
  | confirmed
  | failed
  deriving DecidableEq, Repr

/-- The `status` union of `getTransactionStatus`:
`"pending" | "confirmed" | "failed" | "not_found"`. -/
inductive TxLookupStatus where
  | pending
  | confirmed
  | failed
  | not_found
  deriving DecidableEq, Repr

/-- Result of `TransactionService.getTransactionStatus`. -/
structure TxStatusResult where
  status : TxLookupStatus
  blockNumber : Option Nat
  deriving DecidableEq, Repr

/-- Embedding of `TransactionService.getTransactionStatus` (src/unnamed/part_012): looks up
the receipt; on any lookup failure returns `not_found`; on a receipt returns
`confirmed` when `receipt.status === "success"` and `failed` otherwise. -/
def getTransactionStatus (lookup : Except SvcError TxReceipt) : TxStatusResult :=
  match lookup with
  | .ok receipt =>
      { status := if receipt.status = .success then .confirmed else .failed
        blockNumber := some receipt.blockNumber }
  | .error _ => { status := .not_found, blockNumber := none }

/-- Embedding of `TransactionService.getAllowance`, first variant (src/unnamed/part_012 lines
171-196): returns the raw chain read; on a failed read it rethrows, wrapping the
message with `Failed to read allowance from blockchain`. -/
def getAllowance (read : Except SvcError Nat) : Except SvcError Nat :=
  match read with
  | .ok allowance => .ok allowance
  | .error e => .error (.wrap "Failed to read allowance from blockchain" e)

/-- Embedding of `TransactionService.getAllowance`, second variant (src/unnamed/part_012 lines
373-391): returns the raw chain read, but on a failed read it catches the error
and returns `BigInt(0)`. -/
def getAllowanceLegacy (read : Except SvcError Nat) : Except SvcError Nat :=
  match read with
  | .ok allowance => .ok allowance
  | .error _ => .ok 0

/-- Embedding of `SmartAccountService.isAccountDeployed` (src/server/smart-account-service.ts
lines 101-108 and src/server/index.ts lines 120-127): reads the bytecode at the
address; deployed means `code !== undefined && code !== "0x"`; any read failure
is caught and reported as `false`. -/
def isAccountDeployed (read : Except SvcError (Option String)) : Bool :=
  match read with
  | .ok code => code != none && code != some "0x"
  | .error _ => false

/-- JavaScript `String.prototype.toLowerCase()` on the hex address strings of
the source (character-wise lowercasing). -/
def strToLower (s : String) : String :=
  String.mk (s.data.map Char.toLower)

/-- Parameters of `PaymasterService.executeGaslessRevoke`. -/
structure GaslessRevokeParams where
  smartAccountAddress : Addr
  ownerAddress : Addr
  tokenAddress : Addr
  spenderAddress : Addr
  deriving DecidableEq, Repr

/-- Result of `PaymasterService.executeGaslessRevoke`. -/
structure GaslessRevokeResult where
  userOpHash : TxHash
  status : RStatus
  txHash : Option TxHash
  deriving DecidableEq, Repr

/-- Parameters of `TransactionService.executeGaslessRevoke`. -/
structure RevokeApprovalParams where
  tokenAddress : Addr
  spenderAddress : Addr
  ownerAddress : Addr
  smartAccountAddress : Addr
  deriving DecidableEq, Repr

/-- Result of `TransactionService.executeGaslessRevoke` (`RevokeResult`). -/
structure RevokeResult where
  txHash : TxHash
  userOpHash : Option TxHash
  status : RStatus
  blockNumber : Option Nat
  gasUsed : Option Nat
  gasless : Bool
  deriving DecidableEq, Repr

/-- Environment of the gasless revoke pipeline: configuration flags, the
external account-factory derivation, the allowance chain read, and the
bundler gateway calls.  `deriveAddress` models
`toMetaMaskSmartAccount(deployParams := [owner,[],[],[]], deploySalt :=
keccak256(encodePacked([owner]))).address`, a fixed function of the owner
address because the salt is a hash of the owner and the rest of the factory
configuration is process-wide constant. -/
structure RevokeEnv where
  pimlicoKey : Bool
  deployerKey : Bool
  clientsConfigured : Bool
  deriveAddress : Addr → Addr
  allowanceRead : Addr → Addr → Addr → Except SvcError Nat
  sendUserOperation : Except SvcError TxHash
  waitForUserOperationReceipt : TxHash → Except SvcError TxReceipt

/-- Outcome of one `PaymasterService.executeGaslessRevoke` run, together with
whether `bundlerClient.sendUserOperation` was invoked. -/
structure PmOutcome where
  result : Except SvcError GaslessRevokeResult
  submitted : Bool

/-- The catch block of `PaymasterService.executeGaslessRevoke` (src/server/
paymaster-service.ts lines 159-182): it inspects the message for the
`paymaster` / `bundler` substrings and rethrows a classified message, and
otherwise rethrows `Failed to execute gasless revoke: ...`; every branch
rethrows, so the outcome is always a thrown error wrapping the inner one. -/
def pmCatch (e : SvcError) : SvcError :=
  .wrap "Failed to execute gasless revoke" e

/-- Embedding of `PaymasterService.executeGaslessRevoke` (src/server/paymaster-service.ts
lines 80-183): check configuration, re-derive the smart account from the owner
address and the deterministic salt, abort on a case-insensitive address
mismatch, submit the user operation, wait (bounded, 60 s) for its receipt and
return `status: "confirmed"` with the receipt transaction hash.  A timeout or
failure of the receipt wait is a thrown error routed through `pmCatch`;
no code path returns `status: "pending"`. -/
def paymasterExecuteGaslessRevoke (env : RevokeEnv) (p : GaslessRevokeParams) : PmOutcome :=
  if env.pimlicoKey = false then
    ⟨.error (pmCatch (.configMissing "PIMLICO_API_KEY")), false⟩
  else if env.deployerKey = false then
    ⟨.error (pmCatch (.configMissing "DEPLOYER_PRIVATE_KEY")), false⟩
  else if env.clientsConfigured = false then
    ⟨.error (pmCatch (.configMissing "bundler and paymaster clients")), false⟩
  else if strToLower (env.deriveAddress p.ownerAddress) ≠ strToLower p.smartAccountAddress then
    ⟨.error (pmCatch .mismatch), false⟩
  else
    match env.sendUserOperation with
    | .error e => ⟨.error (pmCatch e), true⟩
    | .ok userOpHash =>
      match env.waitForUserOperationReceipt userOpHash with
      | .error e => ⟨.error (pmCatch e), true⟩
      | .ok receipt =>
          ⟨.ok { userOpHash := userOpHash
                 status := .confirmed
                 txHash := some receipt.transactionHash }, true⟩

/-- The all-zero sentinel transaction hash `0x${"0".repeat(64)}`. -/
def zeroTxHash : TxHash :=
  "0x0000000000000000000000000000000000000000000000000000000000000000"

/-- Outcome of one `TransactionService.executeGaslessRevoke` run, together with
whether the gateway submit was reached. -/
structure TsOutcome where
  result : Except SvcError RevokeResult
  submitted : Bool

/-- Embedding of `TransactionService.executeGaslessRevoke` (src/unnamed/part_012 lines
56-101): read the current allowance for (token, smart account, spender) through
`getAllowance`; if it is zero, short-circuit to a confirmed sentinel result
without calling the paymaster service; otherwise call
`paymasterService.executeGaslessRevoke` and relay its status.  Errors are
rethrown wrapped with `Failed to execute gasless revoke`.  Note that after the
paymaster call there is no further allowance read. -/
def executeGaslessRevoke (env : RevokeEnv) (p : RevokeApprovalParams) : TsOutcome :=
  match getAllowance (env.allowanceRead p.tokenAddress p.smartAccountAddress p.spenderAddress) with
  | .error e => ⟨.error (.wrap "Failed to execute gasless revoke" e), false⟩
  | .ok currentAllowance =>
    if currentAllowance = 0 then
      ⟨.ok { txHash := zeroTxHash
             userOpHash := none
             status := .confirmed
             blockNumber := some 0
             gasUsed := none
             gasless := true }, false⟩
    else
      let pm := paymasterExecuteGaslessRevoke env
        { smartAccountAddress := p.smartAccountAddress
          ownerAddress := p.ownerAddress
          tokenAddress := p.tokenAddress
          spenderAddress := p.spenderAddress }
      match pm.result with
      | .error e => ⟨.error (.wrap "Failed to execute gasless revoke" e), pm.submitted⟩
      | .ok r =>
          ⟨.ok { txHash := r.txHash.getD zeroTxHash
                 userOpHash := some r.userOpHash
                 status := r.status
                 blockNumber := none
                 gasUsed := none
                 gasless := true }, pm.submitted⟩

/-- Environment of the `POST /api/events/revoke-confirm` verification step
(src/server/routes.ts lines 1014-1093): the receipt lookup for the submitted
transaction hash and the fresh allowance read for the event triple. -/
structure ConfirmEnv where
  txHash : TxHash
  receiptLookup : Except SvcError TxReceipt
  allowanceRead : Except SvcError Nat

/-- Responses of the `POST /api/events/revoke-confirm` verification step. -/
inductive ConfirmResponse where
  | pendingNotice (txHash : TxHash)
  | txFailedOnChain (txHash : TxHash)
  | verifyMismatch (txHash : TxHash) (currentAllowance : Nat)
  | verified (txHash : TxHash) (blockNumber : Option Nat)
  | verificationUnavailable
  deriving DecidableEq, Repr

/-- The verification core of `POST /api/events/revoke-confirm` (src/server/
routes.ts lines 1014-1093): look up the transaction status; `not_found` or
`pending` yields a pending notice, `failed` yields an on-chain failure; when
confirmed, re-read the allowance through `getAllowance` (a failed read is
caught as a verification error); a non-zero fresh value yields the
verification-mismatch failure, and only a fresh value of exactly zero yields
the verified success response. -/
def revokeConfirm (env : ConfirmEnv) : ConfirmResponse :=
  let txStatus := getTransactionStatus env.receiptLookup
  if txStatus.status = .not_found ∨ txStatus.status = .pending then
    .pendingNotice env.txHash
  else if txStatus.status = .failed then
    .txFailedOnChain env.txHash
  else
    match getAllowance env.allowanceRead with
    | .error _ => .verificationUnavailable
    | .ok currentAllowance =>
      if currentAllowance ≠ 0 then
        .verifyMismatch env.txHash currentAllowance
      else
        .verified env.txHash txStatus.blockNumber

/-- Parameters of `SmartAccountService.deploySmartAccount`. -/
structure DeployParams where
  smartAccountAddress : Addr
  ownerAddress : Addr
  deriving DecidableEq, Repr

/-- Result of `SmartAccountService.deploySmartAccount` (`DeploymentResult`). -/
structure DeploymentResult where
  txHash : TxHash
  blockNumber : Nat
  gasUsed : Nat
  deriving DecidableEq, Repr

/-- Environment of `SmartAccountService.deploySmartAccount`: the bytecode read
before deployment, the deployer-key configuration, the factory re-derivation,
the funded deployment transaction and its receipt wait, and the bytecode
re-read after inclusion. -/
structure DeployEnv where
  deployerKey : Bool
  deriveAddress : Addr → Addr
  bytecodeBefore : Except SvcError (Option String)
  sendTransaction : Except SvcError TxHash
  waitForTransactionReceipt : TxHash → Except SvcError TxReceipt
  bytecodeAfter : Except SvcError (Option String)

/-- Outcome of one `deploySmartAccount` run, together with whether the factory
deployment transaction was sent. -/
structure DeployOutcome where
  result : Except SvcError DeploymentResult
  sent : Bool

/-- The catch block of `deploySmartAccount`: every thrown error is rethrown as
`Failed to deploy smart account: ...`. -/
def deployCatch (e : SvcError) : SvcError :=
  .wrap "Failed to deploy smart account" e

/-- Embedding of `SmartAccountService.deploySmartAccount` (src/server/index.ts lines
146-238): fail when the bytecode-presence read says the account is already
deployed; fail when the deployer key is missing; re-derive the account from
the owner address and fail on a case-insensitive address mismatch; send the
funded factory transaction; wait (bounded) for its receipt; fail when the
receipt status is not success; re-check bytecode presence and fail when the
contract is still absent; otherwise return hash, block number and gas used. -/
def deploySmartAccount (env : DeployEnv) (p : DeployParams) : DeployOutcome :=
  if isAccountDeployed env.bytecodeBefore then
    ⟨.error (deployCatch .alreadyDeployed), false⟩
  else if env.deployerKey = false then
    ⟨.error (deployCatch (.configMissing "DEPLOYER_PRIVATE_KEY")), false⟩
  else if strToLower (env.deriveAddress p.ownerAddress) ≠ strToLower p.smartAccountAddress then
    ⟨.error (deployCatch .mismatch), false⟩
  else
    match env.sendTransaction with
    | .error e => ⟨.error (deployCatch e), true⟩
    | .ok txHash =>
      match env.waitForTransactionReceipt txHash with
      | .error e => ⟨.error (deployCatch e), true⟩
      | .ok receipt =>
        if receipt.status ≠ .success then
          ⟨.error (deployCatch .txFailed), true⟩
        else if isAccountDeployed env.bytecodeAfter = false then
          ⟨.error (deployCatch .verifyFailed), true⟩
        else
          ⟨.ok { txHash := txHash
                 blockNumber := receipt.blockNumber
                 gasUsed := receipt.gasUsed }, true⟩

/-- The deterministic CREATE2 salt of the derivation flows
(smart-account-service.ts line 37, paymaster-service.ts line 87, index.ts line
157): `keccak256(encodePacked(["address"], [ownerAddress]))`, a pure function
of the owner address for the process-wide `keccak` primitive. -/
def deterministicSalt (keccak : String → String) (ownerAddress : Addr) : String :=
  keccak ownerAddress

/-- Address derivation of `SmartAccountService.createSmartAccount`
(src/server/smart-account-service.ts lines 37-64): the smart-account address
computed by the external account factory from the owner address and the
deterministic salt.  `mkAccountAddr` abstracts the fixed factory formula of
`toMetaMaskSmartAccount`; the ambient clock `_nowMs` is available at the call
but never read by this variant. -/
def createSmartAccountAddress (mkAccountAddr : Addr → String → Addr)
    (keccak : String → String) (ownerAddress : Addr) (_nowMs : Nat) : Addr :=
  mkAccountAddr ownerAddress (deterministicSalt keccak ownerAddress)

/-- Hex digits of a natural number, as produced by `Number.toString(16)`. -/
def natToHex (n : Nat) : String :=
  String.mk (Nat.toDigits 16 n)

/-- The salt of the `createSmartAccount` variant in src/server/index.ts line
289: `0x${Date.now().toString(16).padStart(64, "0")}` at clock value
`nowMs`. -/
def dateSalt (nowMs : Nat) : String :=
  let digits := natToHex nowMs
  "0x" ++ String.mk (List.replicate (64 - digits.length) '0') ++ digits

/-- Address derivation of the `createSmartAccount` variant in
src/server/index.ts lines 280-291: the account factory applied to the owner
address and a `deploySalt` taken from the current clock value. -/
def createSmartAccountAddressV2 (mkAccountAddr : Addr → String → Addr)
    (ownerAddress : Addr) (nowMs : Nat) : Addr :=
  mkAccountAddr ownerAddress (dateSalt nowMs)

/-- Modelled from the spec: the account-factory address formula of the external
`toMetaMaskSmartAccount` (MetaMask Delegation Toolkit), which the spec (§4.1)
describes as the standard deterministic-deployment (CREATE2) formula over the
fixed factory configuration, the owner deploy parameter and the `deploySalt`,
relied upon to distinguish distinct `(owner, salt)` inputs via a cryptographic
hash; modelled as an injective encoding of owner and salt. -/
def mkAccountAddrModel (ownerAddress : Addr) (salt : String) : Addr :=
  "0xacc:" ++ ownerAddress ++ ":" ++ salt

/-- Constant `RATE_LIMIT_WINDOW_MS` (src/server/routes.ts line 422): one minute. -/
def RATE_LIMIT_WINDOW_MS : Nat := 60000

/-- Constant `MAX_DEPLOYMENTS_PER_WINDOW` (src/server/routes.ts line 423). -/
def MAX_DEPLOYMENTS_PER_WINDOW : Nat := 3

/-- The `deploymentRateLimits` map, owner address to recorded attempt
timestamps; an absent key reads as the empty list (`|| []` in the source). -/
abbrev RLState := String → List Nat

/-- Embedding of `checkRateLimit` (src/server/routes.ts lines 425-440): drop the recorded
timestamps of the owner that fall outside the sliding window, reject when the
configured maximum is already reached (leaving the map untouched), and
otherwise record the current timestamp for the owner and grant the attempt. -/
def checkRateLimit (state : RLState) (ownerAddress : String) (now : Nat) : Bool × RLState :=
  let timestamps := state ownerAddress
  let recentTimestamps := timestamps.filter (fun ts => now - ts < RATE_LIMIT_WINDOW_MS)
  if MAX_DEPLOYMENTS_PER_WINDOW ≤ recentTimestamps.length then
    (false, state)
  else
    (true, fun k => if k = ownerAddress then recentTimestamps ++ [now] else state k)

/-- Three granted deployment attempts by one owner, threaded through the rate
limiter state. -/
def rlRun3 (s0 : RLState) (ownerAddress : String) (t1 t2 t3 : Nat) : RLState :=
  (checkRateLimit (checkRateLimit (checkRateLimit s0 ownerAddress t1).2 ownerAddress t2).2
    ownerAddress t3).2

/-- Environment refuting claim C1 on the gasless path: configuration present,
derivation matching, submission accepted, receipt included with success status,
while the on-chain allowance for the triple reads 1000000 throughout (the inner
approve call did not take effect). -/
def envC1 : RevokeEnv :=
  { pimlicoKey := true, deployerKey := true, clientsConfigured := true
    deriveAddress := fun _ => "0xSA1"
    allowanceRead := fun _ _ _ => .ok 1000000
    sendUserOperation := .ok "0xop1"
    waitForUserOperationReceipt := fun _ =>
      .ok { status := .success, transactionHash := "0xtx1", blockNumber := 77, gasUsed := 50000 } }

/-- Parameters of the C1 counterexample run. -/
def pC1 : RevokeApprovalParams :=
  { tokenAddress := "0xtok", spenderAddress := "0xspend"
    ownerAddress := "0xowner", smartAccountAddress := "0xsa1" }

/-- Concrete revoke-confirm environment for the C1 witness: transaction
confirmed on-chain, fresh allowance read returning 1000000. -/
def envC1w : ConfirmEnv :=
  { txHash := "0xtxw"
    receiptLookup := .ok { status := .success, transactionHash := "0xtxw", blockNumber := 5, gasUsed := 1 }
    allowanceRead := .ok 1000000 }

/-- Environment for the C3 witness: the allowance oracle reads zero. -/
def envC3 : RevokeEnv :=
  { pimlicoKey := true, deployerKey := true, clientsConfigured := true
    deriveAddress := fun _ => "0xSA3"
    allowanceRead := fun _ _ _ => .ok 0
    sendUserOperation := .ok "0xop3"
    waitForUserOperationReceipt := fun _ =>
      .ok { status := .success, transactionHash := "0xtx3", blockNumber := 9, gasUsed := 100 } }

/-- Parameters of the C3 witness run. -/
def pC3 : RevokeApprovalParams :=
  { tokenAddress := "0xtok3", spenderAddress := "0xsp3"
    ownerAddress := "0xown3", smartAccountAddress := "0xsa3" }

/-- Environment for the C5 witness: fully configured, but the factory
derivation yields an address different from the caller-supplied one. -/
def envC5 : RevokeEnv :=
  { pimlicoKey := true, deployerKey := true, clientsConfigured := true
    deriveAddress := fun _ => "0xDERIVED"
    allowanceRead := fun _ _ _ => .ok 42
    sendUserOperation := .ok "0xop5"
    waitForUserOperationReceipt := fun _ =>
      .ok { status := .success, transactionHash := "0xtx5", blockNumber := 3, gasUsed := 10 } }

/-- Parameters of the C5 witness run: the claimed smart-account address does
not match the re-derived one. -/
def pC5 : GaslessRevokeParams :=
  { smartAccountAddress := "0xclaimed", ownerAddress := "0xown5"
    tokenAddress := "0xtok5", spenderAddress := "0xsp5" }

/-- Environment for the C6 failing input: fully configured, matching
derivation, non-zero allowance, accepted submission, but the bounded receipt
wait ends in a timeout. -/
def envC6 : RevokeEnv :=
  { pimlicoKey := true, deployerKey := true, clientsConfigured := true
    deriveAddress := fun _ => "0xSA6"
    allowanceRead := fun _ _ _ => .ok 500
    sendUserOperation := .ok "0xop6"
    waitForUserOperationReceipt := fun _ => .error .timeout }

/-- Parameters of the C6 failing-input run. -/
def pC6 : RevokeApprovalParams :=
  { tokenAddress := "0xtok6", spenderAddress := "0xsp6"
    ownerAddress := "0xown6", smartAccountAddress := "0xsa6" }

/-- Environment for the C7 witness: the target address already carries
deployed bytecode. -/
def envC7 : DeployEnv :=
  { deployerKey := true
    deriveAddress := fun _ => "0xsa7"
    bytecodeBefore := .ok (some "0x6080")
    sendTransaction := .ok "0xdt7"
    waitForTransactionReceipt := fun _ =>
      .ok { status := .success, transactionHash := "0xdt7", blockNumber := 9, gasUsed := 100 }
    bytecodeAfter := .ok (some "0x6080") }

/-- Parameters of the C7 witness run. -/
def pC7 : DeployParams :=
  { smartAccountAddress := "0xsa7", ownerAddress := "0xown7" }

/-- Environment for the C10 witness: the bytecode read fails with a network
error while the rest of the deployment flow is operational. -/
def envC10 : DeployEnv :=
  { deployerKey := true
    deriveAddress := fun _ => "0xsa10"
    bytecodeBefore := .error (.network "RPC unreachable")
    sendTransaction := .ok "0xdt10"
    waitForTransactionReceipt := fun _ =>
      .ok { status := .success, transactionHash := "0xdt10", blockNumber := 12, gasUsed := 300 }
    bytecodeAfter := .ok (some "0x6080") }

/-- Parameters of the C10 witness run. -/
def pC10 : DeployParams :=
  { smartAccountAddress := "0xsa10", ownerAddress := "0xown10" }

/-!
Theorems settling the claims.  Each claim has one theorem; concrete
environments used by a single claim are named after it.
-/

/-- Claim C1 counterexample: on the gasless orchestrator path
(`TransactionService.executeGaslessRevoke`), the operation is submitted and
included with a success status, yet the result reports `confirmed` although an
independent read of the allowance for the triple returns 1000000, not zero —
the orchestrator performs no post-inclusion allowance re-check, so the claimed
"success only if a fresh read returned exactly zero" fails on this run. -/
theorem c1_counterexample :
    (executeGaslessRevoke envC1 pC1).result =
      Except.ok { txHash := "0xtx1", userOpHash := some "0xop1", status := .confirmed,
                  blockNumber := none, gasUsed := none, gasless := true } ∧
    getAllowance (envC1.allowanceRead pC1.tokenAddress pC1.smartAccountAddress pC1.spenderAddress) =
      Except.ok 1000000 ∧ (1000000 : Nat) ≠ 0 :=
  ⟨rfl, rfl, by decide⟩

/-- Claim C1 (amended): the guarantee holds on the revoke-confirm verification
route: it reports the verified success response only if the transaction status
lookup is `confirmed` and the fresh independent allowance read returns exactly
zero; and whenever the transaction is confirmed but the fresh read is a
non-zero value, it reports the verification-mismatch failure, never success.
(The gasless orchestrator path reports the inclusion status with no
post-inclusion allowance re-check.) -/
theorem c1_amended (env : ConfirmEnv) :
    (∀ txh bn, revokeConfirm env = .verified txh bn →
      (getTransactionStatus env.receiptLookup).status = .confirmed ∧
      getAllowance env.allowanceRead = .ok 0) ∧
    (∀ n, (getTransactionStatus env.receiptLookup).status = .confirmed →
      getAllowance env.allowanceRead = .ok n → n ≠ 0 →
      revokeConfirm env = .verifyMismatch env.txHash n) := by
  constructor
  · intro txh bn hv
    cases hlook : env.receiptLookup with
    | error e =>
        exfalso
        simp [revokeConfirm, getTransactionStatus, hlook] at hv
    | ok receipt =>
        cases hst : receipt.status with
        | reverted =>
            exfalso
            simp [revokeConfirm, getTransactionStatus, hlook, hst] at hv
        | success =>
            refine ⟨by simp [getTransactionStatus, hlook, hst], ?_⟩
            cases hal : getAllowance env.allowanceRead with
            | error e =>
                exfalso
                simp [revokeConfirm, getTransactionStatus, hlook, hst, hal] at hv
            | ok n =>
                rcases Nat.eq_zero_or_pos n with hn | hn
                · simp [hn]
                · exfalso
                  simp [revokeConfirm, getTransactionStatus, hlook, hst, hal,
                    Nat.pos_iff_ne_zero.mp hn] at hv
  · intro n hconf hal hn
    cases hlook : env.receiptLookup with
    | error e =>
        exfalso
        simp [getTransactionStatus, hlook] at hconf
    | ok receipt =>
        cases hst : receipt.status with
        | reverted =>
            exfalso
            simp [getTransactionStatus, hlook, hst] at hconf
        | success =>
            simp [revokeConfirm, getTransactionStatus, hlook, hst, hal, hn]

/-- Claim C1 witness: on a confirmed transaction whose fresh allowance read
returns 1000000, the revoke-confirm route reports the verification-mismatch
failure. -/
theorem c1_witness :
    revokeConfirm envC1w = .verifyMismatch "0xtxw" 1000000 :=
  (c1_amended envC1w).2 1000000 rfl rfl (by decide)

/-- Claim C2: on a failed chain read the first-variant `getAllowance` (the one
the gasless orchestrator and the revoke-confirm route call) propagates a
wrapped error and returns no value, while the second-variant `getAllowance`
catches the same failure and returns zero — the behaviour the claim (and the
CRITICAL comment of the first variant) rules out.  This evaluates both
variants at the failing input. -/
theorem c2_allowance_error_paths :
    getAllowanceLegacy (Except.error (SvcError.network "ECONNREFUSED")) = Except.ok 0 ∧
    getAllowance (Except.error (SvcError.network "ECONNREFUSED")) =
      Except.error (.wrap "Failed to read allowance from blockchain"
        (SvcError.network "ECONNREFUSED")) :=
  ⟨rfl, rfl⟩

/-- Claim C3: whenever the initial allowance read for the
(token, smart account, spender) triple returns exactly zero, the gasless
orchestrator returns the confirmed sentinel result carrying the all-zero
transaction hash, and the gateway submit is never invoked.  Because nothing is
submitted, the chain state is untouched, so a second consecutive call runs
against the same environment and is this very same application, yielding the
same sentinel outcome with no submission. -/
theorem c3_short_circuit (env : RevokeEnv) (p : RevokeApprovalParams)
    (h : env.allowanceRead p.tokenAddress p.smartAccountAddress p.spenderAddress = .ok 0) :
    executeGaslessRevoke env p =
      ⟨.ok { txHash := zeroTxHash, userOpHash := none, status := .confirmed,
             blockNumber := some 0, gasUsed := none, gasless := true }, false⟩ := by
  simp [executeGaslessRevoke, getAllowance, h]

/-- Claim C3 witness: concrete already-zero run short-circuits to the sentinel
success without submitting. -/
theorem c3_witness :
    executeGaslessRevoke envC3 pC3 =
      ⟨.ok { txHash := zeroTxHash, userOpHash := none, status := .confirmed,
             blockNumber := some 0, gasUsed := none, gasless := true }, false⟩ :=
  c3_short_circuit envC3 pC3 rfl

/-- Claim C4 counterexample: the `createSmartAccount` variant of
src/server/index.ts lines 280-291 takes its `deploySalt` from the current
clock (`Date.now()`), so for one fixed owner address two calls at clock values
1000 and 2000 hand the account factory different salts and obtain different
smart-account addresses — the derivation is not stable across calls or
process runs. -/
theorem c4_counterexample :
    createSmartAccountAddressV2 mkAccountAddrModel "0xOwner" 1000 ≠
    createSmartAccountAddressV2 mkAccountAddrModel "0xOwner" 2000 := by
  decide

/-- Claim C4 (amended): for the deterministic-salt derivation (salt =
keccak256 of the owner address; smart-account-service.ts, paymaster-service.ts,
and the deploy flow of index.ts), a fixed owner address yields the same
smart-account address at every call regardless of the clock value, and —
granting the cryptographic assumptions the spec relies on, namely that the
factory address formula distinguishes salts and the hash distinguishes
owners — two different owner addresses never yield the same address.  The
index.ts `createSmartAccount` variant whose `deploySalt` comes from
`Date.now()` does not have the stability property. -/
theorem c4_amended (mkAccountAddr : Addr → String → Addr) (keccak : String → String)
    (hsalt : ∀ o1 s1 o2 s2, mkAccountAddr o1 s1 = mkAccountAddr o2 s2 → s1 = s2)
    (hkeccak : Function.Injective keccak) :
    (∀ ownerAddress t1 t2,
      createSmartAccountAddress mkAccountAddr keccak ownerAddress t1 =
      createSmartAccountAddress mkAccountAddr keccak ownerAddress t2) ∧
    (∀ o1 o2, o1 ≠ o2 →
      createSmartAccountAddress mkAccountAddr keccak o1 0 ≠
      createSmartAccountAddress mkAccountAddr keccak o2 0) := by
  constructor
  · intro ownerAddress t1 t2
    rfl
  · intro o1 o2 hne heq
    exact hne (hkeccak (hsalt _ _ _ _ heq))

/-- Claim C4 witness: with a concrete salt-distinguishing factory formula and a
concrete injective hash, the derivation at clock values 5 and 9 agrees for one
owner, and two distinct concrete owners obtain distinct addresses. -/
theorem c4_witness :
    (createSmartAccountAddress (fun _ s => s) id "0xaa" 5 =
     createSmartAccountAddress (fun _ s => s) id "0xaa" 9) ∧
    createSmartAccountAddress (fun _ s => s) id "0xaa" 0 ≠
    createSmartAccountAddress (fun _ s => s) id "0xbb" 0 := by
  have h := c4_amended (fun _ s => s) id (fun _ _ _ _ hs => hs) (fun _ _ hab => hab)
  exact ⟨h.1 "0xaa" 5 9, h.2 "0xaa" "0xbb" (by decide)⟩

/-- Claim C5: whenever the smart-account address re-derived from the owner
address differs (case-insensitively) from the caller-supplied
`smartAccountAddress`, `PaymasterService.executeGaslessRevoke` ends in a
thrown error and `bundlerClient.sendUserOperation` is never invoked —
regardless of the configuration flags, since a missing configuration also
aborts with an error before any submission. -/
theorem c5_mismatch_aborts (env : RevokeEnv) (p : GaslessRevokeParams)
    (h : strToLower (env.deriveAddress p.ownerAddress) ≠ strToLower p.smartAccountAddress) :
    (paymasterExecuteGaslessRevoke env p).result.isOk = false ∧
    (paymasterExecuteGaslessRevoke env p).submitted = false := by
  unfold paymasterExecuteGaslessRevoke
  cases hp : env.pimlicoKey <;> cases hd : env.deployerKey <;>
    cases hc : env.clientsConfigured <;>
      simp [hp, hd, hc, h, pmCatch, Except.isOk, Except.toBool]

/-- Claim C5 witness: the concrete mismatch run fails and never submits. -/
theorem c5_witness :
    (paymasterExecuteGaslessRevoke envC5 pC5).result.isOk = false ∧
    (paymasterExecuteGaslessRevoke envC5 pC5).submitted = false :=
  c5_mismatch_aborts envC5 pC5 (by decide)

/-- Claim C6, evaluated at the failing input: when
`waitForUserOperationReceipt` exceeds its timeout, the orchestrator does not
produce a result with status `pending` — the timeout error is rethrown by the
paymaster catch block and again by the transaction-service catch block, so the
caller sees a thrown failure, and the operation had in fact been submitted. -/
theorem c6_timeout_throws :
    (executeGaslessRevoke envC6 pC6).result =
      Except.error (.wrap "Failed to execute gasless revoke"
        (.wrap "Failed to execute gasless revoke" SvcError.timeout)) ∧
    (executeGaslessRevoke envC6 pC6).submitted = true :=
  ⟨rfl, rfl⟩

/-- Claim C7: when the bytecode-presence read of the target address succeeds
and reports deployed bytecode, `deploySmartAccount` fails with the distinct
already-deployed error and the factory deployment transaction is never
sent. -/
theorem c7_already_deployed (env : DeployEnv) (p : DeployParams) (code : String)
    (hread : env.bytecodeBefore = .ok (some code)) (hcode : code ≠ "0x") :
    (deploySmartAccount env p).result = .error (deployCatch .alreadyDeployed) ∧
    (deploySmartAccount env p).sent = false := by
  unfold deploySmartAccount
  simp [isAccountDeployed, hread, hcode]

/-- Claim C7 witness: the concrete already-deployed run fails with the
already-deployed error and sends nothing. -/
theorem c7_witness :
    (deploySmartAccount envC7 pC7).result = .error (deployCatch .alreadyDeployed) ∧
    (deploySmartAccount envC7 pC7).sent = false :=
  c7_already_deployed envC7 pC7 "0x6080" rfl (by decide)

/-- The grant decision of `checkRateLimit` for an owner depends only on the
timestamps recorded for that owner. -/
theorem checkRateLimit_fst_congr (s s2 : RLState) (ownerAddress : String) (now : Nat)
    (h : s ownerAddress = s2 ownerAddress) :
    (checkRateLimit s ownerAddress now).1 = (checkRateLimit s2 ownerAddress now).1 := by
  unfold checkRateLimit
  rw [h]
  dsimp only
  split <;> rfl

/-- One granted `checkRateLimit` step: when the in-window timestamps of the
owner are below the maximum, the attempt is granted, the current timestamp is
appended to the in-window timestamps of the owner, and every other key of the
map is untouched. -/
theorem checkRateLimit_grant (s : RLState) (o : String) (now : Nat) (l : List Nat)
    (hl : s o = l)
    (hlen : (l.filter (fun ts => now - ts < RATE_LIMIT_WINDOW_MS)).length
      < MAX_DEPLOYMENTS_PER_WINDOW) :
    (checkRateLimit s o now).1 = true ∧
    (checkRateLimit s o now).2 o
      = l.filter (fun ts => now - ts < RATE_LIMIT_WINDOW_MS) ++ [now] ∧
    ∀ k, k ≠ o → (checkRateLimit s o now).2 k = s k := by
  unfold checkRateLimit
  rw [hl, if_neg (by omega)]
  refine ⟨rfl, by simp, ?_⟩
  intro k hk
  simp [hk]

/-- One rejected `checkRateLimit` step: when the in-window timestamps of the
owner already reach the maximum, the attempt is rejected and the map is
returned unchanged. -/
theorem checkRateLimit_reject (s : RLState) (o : String) (now : Nat) (l : List Nat)
    (hl : s o = l)
    (hlen : MAX_DEPLOYMENTS_PER_WINDOW
      ≤ (l.filter (fun ts => now - ts < RATE_LIMIT_WINDOW_MS)).length) :
    checkRateLimit s o now = (false, s) := by
  unfold checkRateLimit
  rw [hl, if_pos hlen]

/-- Claim C8: starting from a state where owner `A` has no recorded attempts,
three deployment attempts by `A` at times `t1, t2, t3` inside one sliding
window are granted; a fourth attempt at `now` inside the window is rejected
and leaves the rate-limit state untouched, a fifth attempt at `now2` inside
the window is likewise rejected, and the grant decision for any different
owner `B` is the same as it would have been before any of the attempts of
`A`. -/
theorem c8_rate_limit (s0 : RLState) (ownerA ownerB : String) (t1 t2 t3 now now2 : Nat)
    (hA0 : s0 ownerA = [])
    (h21 : t2 - t1 < RATE_LIMIT_WINDOW_MS)
    (h31 : t3 - t1 < RATE_LIMIT_WINDOW_MS) (h32 : t3 - t2 < RATE_LIMIT_WINDOW_MS)
    (hn1 : now - t1 < RATE_LIMIT_WINDOW_MS) (hn2 : now - t2 < RATE_LIMIT_WINDOW_MS)
    (hn3 : now - t3 < RATE_LIMIT_WINDOW_MS)
    (hm1 : now2 - t1 < RATE_LIMIT_WINDOW_MS) (hm2 : now2 - t2 < RATE_LIMIT_WINDOW_MS)
    (hm3 : now2 - t3 < RATE_LIMIT_WINDOW_MS)
    (hAB : ownerA ≠ ownerB) :
    (checkRateLimit s0 ownerA t1).1 = true ∧
    (checkRateLimit (checkRateLimit s0 ownerA t1).2 ownerA t2).1 = true ∧
    (checkRateLimit (checkRateLimit (checkRateLimit s0 ownerA t1).2 ownerA t2).2 ownerA t3).1
      = true ∧
    (checkRateLimit (rlRun3 s0 ownerA t1 t2 t3) ownerA now).1 = false ∧
    (checkRateLimit (rlRun3 s0 ownerA t1 t2 t3) ownerA now).2 = rlRun3 s0 ownerA t1 t2 t3 ∧
    (checkRateLimit ((checkRateLimit (rlRun3 s0 ownerA t1 t2 t3) ownerA now).2) ownerA now2).1
      = false ∧
    (checkRateLimit (rlRun3 s0 ownerA t1 t2 t3) ownerB now).1
      = (checkRateLimit s0 ownerB now).1 := by
  have hBA : ownerB ≠ ownerA := Ne.symm hAB
  have step1 := checkRateLimit_grant s0 ownerA t1 [] hA0
    (by simp [MAX_DEPLOYMENTS_PER_WINDOW])
  have ha1 : (checkRateLimit s0 ownerA t1).2 ownerA = [t1] := by
    simpa using step1.2.1
  have step2 := checkRateLimit_grant (checkRateLimit s0 ownerA t1).2 ownerA t2 [t1] ha1
    (by simp [MAX_DEPLOYMENTS_PER_WINDOW, h21])
  have ha2 : (checkRateLimit (checkRateLimit s0 ownerA t1).2 ownerA t2).2 ownerA
      = [t1, t2] := by
    simpa [h21] using step2.2.1
  have step3 := checkRateLimit_grant
    (checkRateLimit (checkRateLimit s0 ownerA t1).2 ownerA t2).2 ownerA t3 [t1, t2] ha2
    (by simp [MAX_DEPLOYMENTS_PER_WINDOW, h31, h32])
  have ha3 : rlRun3 s0 ownerA t1 t2 t3 ownerA = [t1, t2, t3] := by
    simpa [h31, h32] using step3.2.1
  have reject4 := checkRateLimit_reject (rlRun3 s0 ownerA t1 t2 t3) ownerA now
    [t1, t2, t3] ha3 (by simp [MAX_DEPLOYMENTS_PER_WINDOW, hn1, hn2, hn3])
  have reject5 := checkRateLimit_reject (rlRun3 s0 ownerA t1 t2 t3) ownerA now2
    [t1, t2, t3] ha3 (by simp [MAX_DEPLOYMENTS_PER_WINDOW, hm1, hm2, hm3])
  have hb3 : rlRun3 s0 ownerA t1 t2 t3 ownerB = s0 ownerB := by
    rw [show rlRun3 s0 ownerA t1 t2 t3 ownerB
        = (checkRateLimit (checkRateLimit (checkRateLimit s0 ownerA t1).2 ownerA t2).2
            ownerA t3).2 ownerB from rfl,
      step3.2.2 ownerB hBA, step2.2.2 ownerB hBA, step1.2.2 ownerB hBA]
  refine ⟨step1.1, step2.1, step3.1, ?_, ?_, ?_, ?_⟩
  · rw [reject4]
  · rw [reject4]
  · rw [reject4]
    rw [reject5]
  · exact checkRateLimit_fst_congr _ _ _ _ hb3

/-- Claim C8 witness: concrete run with owner `0xa` attempting at 0, 1, 2 and
again at 3 and 4 (all inside one minute), and a different owner `0xb`
evaluated at 3. -/
theorem c8_witness :
    (checkRateLimit (fun _ => []) "0xa" 0).1 = true ∧
    (checkRateLimit (checkRateLimit (fun _ => []) "0xa" 0).2 "0xa" 1).1 = true ∧
    (checkRateLimit (checkRateLimit (checkRateLimit (fun _ => []) "0xa" 0).2 "0xa" 1).2
      "0xa" 2).1 = true ∧
    (checkRateLimit (rlRun3 (fun _ => []) "0xa" 0 1 2) "0xa" 3).1 = false ∧
    (checkRateLimit (rlRun3 (fun _ => []) "0xa" 0 1 2) "0xa" 3).2
      = rlRun3 (fun _ => []) "0xa" 0 1 2 ∧
    (checkRateLimit ((checkRateLimit (rlRun3 (fun _ => []) "0xa" 0 1 2) "0xa" 3).2)
      "0xa" 4).1 = false ∧
    (checkRateLimit (rlRun3 (fun _ => []) "0xa" 0 1 2) "0xb" 3).1
      = (checkRateLimit (fun _ => []) "0xb" 3).1 :=
  c8_rate_limit (fun _ => []) "0xa" "0xb" 0 1 2 3 4 rfl (by decide) (by decide)
    (by decide) (by decide) (by decide) (by decide) (by decide) (by decide)
    (by decide) (by decide)

/-- Claim C9: `getTransactionStatus` is a total function of the receipt
lookup: a failed lookup yields `not_found` with no block number, a successful
lookup yields `confirmed` exactly when the receipt status is success and
`failed` otherwise, and no input whatsoever yields `pending`, although that
value is in the declared result type. -/
theorem c9_tx_status (lookup : Except SvcError TxReceipt) :
    (getTransactionStatus lookup).status ≠ .pending ∧
    (∀ e, lookup = .error e →
      getTransactionStatus lookup = { status := .not_found, blockNumber := none }) ∧
    (∀ receipt, lookup = .ok receipt →
      ((getTransactionStatus lookup).status = .confirmed ↔ receipt.status = .success) ∧
      ((getTransactionStatus lookup).status = .failed ↔ receipt.status ≠ .success)) := by
  cases lookup with
  | error e => simp [getTransactionStatus]
  | ok receipt =>
      cases hst : receipt.status <;> simp [getTransactionStatus, hst]

/-- Claim C9 witness: a concrete failed lookup maps to `not_found` and is not
`pending`; a concrete reverted receipt maps to `failed`. -/
theorem c9_witness :
    getTransactionStatus (Except.error (SvcError.network "receipt lookup failed"))
      = { status := .not_found, blockNumber := none } ∧
    (getTransactionStatus (Except.error (SvcError.network "receipt lookup failed"))).status
      ≠ .pending ∧
    (getTransactionStatus (Except.ok
      { status := .reverted, transactionHash := "0xtx9", blockNumber := 4, gasUsed := 21000 })).status
      = .failed := by
  refine ⟨(c9_tx_status _).2.1 _ rfl, (c9_tx_status _).1, ?_⟩
  have h := ((c9_tx_status (Except.ok
    { status := .reverted, transactionHash := "0xtx9", blockNumber := 4, gasUsed := 21000 })).2.2
    _ rfl).2
  simpa using h.mpr (by decide)

/-- Claim C10: `isAccountDeployed` never propagates a failed bytecode read —
any read failure is reported as `false` — and consequently the
already-deployed precondition check of the deployment orchestrator passes
while the chain read is failing: the deployment run is indistinguishable from
one against an address with no deployed bytecode. -/
theorem c10_read_failure_is_not_deployed (env : DeployEnv) (p : DeployParams) (e : SvcError)
    (h : env.bytecodeBefore = .error e) :
    isAccountDeployed env.bytecodeBefore = false ∧
    deploySmartAccount env p = deploySmartAccount { env with bytecodeBefore := Except.ok none } p := by
  constructor
  · simp [isAccountDeployed, h]
  · unfold deploySmartAccount
    simp [isAccountDeployed, h]

/-- Claim C10 witness: with the failing bytecode read, the deployed check
reports false and the deployment proceeds exactly as for an undeployed
address. -/
theorem c10_witness :
    isAccountDeployed envC10.bytecodeBefore = false ∧
    deploySmartAccount envC10 pC10
      = deploySmartAccount { envC10 with bytecodeBefore := Except.ok none } pC10 :=
  c10_read_failure_is_not_deployed envC10 pC10 (.network "RPC unreachable") rfl
